import Mathlib

/-!
Shallow embedding of `near_api/account.py` (MyWishPlatform/near-api-py).

The Python module defines a class `Account` holding a provider (RPC
transport), a signer, an account id, a cached account-state dict and an
access-key dict (with a mutable `"nonce"` entry).  Its core operations are:

* `_sign_and_submit_tx`        (account.py lines 34-46, synchronous path)
* `_sign_and_submit_tx_async`  (account.py lines 48-72, asynchronous path)
* `fetch_state`                (account.py lines 94-96)
* `view_function`              (account.py lines 218-224)

External collaborators (the RPC provider, the `transactions` module, the
`base58` and `json` libraries) are modelled as records of functions; values
this module never inspects (actions, signer, failure payloads, account
state, permission fields, parsed JSON values) are opaque type parameters.
Python exceptions are modelled with `Except`; the observable effects of a
call (the nonce increment, the block-hash fetch, the call to the external
sign-and-serialize collaborator, the submission, the printed log lines) are
recorded in an explicit event trace, in the order the Python statements
execute them.
-/

/-- An exception raised by an external collaborator (network/transport or
signing failure).  This module never inspects it, only propagates it. -/
structure RpcErr where
  msg : String
deriving DecidableEq, Repr

/-- An exception raised by `json.loads` on text that is not valid JSON. -/
structure JsonErr where
  msg : String
deriving DecidableEq, Repr

/-- `provider.get_status()['sync_info']` — the code reads only
`latest_block_hash` from it. -/
structure SyncInfo where
  latest_block_hash : String
deriving DecidableEq, Repr

/-- The response of `provider.get_status()`. -/
structure StatusResp where
  sync_info : SyncInfo
deriving DecidableEq, Repr

/-- `outcome['outcome']` — the code reads only the `logs` list. -/
structure ExecOutcome where
  logs : List String
deriving DecidableEq, Repr

/-- One entry of `[result['transaction_outcome']] + result['receipts_outcome']`. -/
structure OutcomeEntry where
  outcome : ExecOutcome
deriving DecidableEq, Repr

/-- `result['status']` of a synchronous submission: a dict which may or may
not contain the key `'Failure'`.  `Failure = some p` models the key being
present with payload `p` (`'Failure' in result['status']` is then true and
`result['status']['Failure']` is `p`); the code looks at no other key. -/
structure TxStatus (P : Type) where
  Failure : Option P
deriving DecidableEq, Repr

/-- The response dict of `provider.send_tx_and_wait` (the outcome tree):
the fields the code reads, i.e. `transaction_outcome`, `receipts_outcome`
and `status`. -/
structure TxResult (P : Type) where
  transaction_outcome : OutcomeEntry
  receipts_outcome : List OutcomeEntry
  status : TxStatus P
deriving DecidableEq, Repr

/-- The response dict of `provider.view_call`: `error = some e` models the
key `'error'` being present with value `e`; `result` is the byte sequence
under `'result'`; `rest` stands for all other fields of the dict, which the
code keeps but never touches. -/
structure ViewResp (E R : Type) where
  error : Option E
  result : List Nat
  rest : R
deriving DecidableEq, Repr

/-- The dict returned by `view_function`: the input response with its
`'result'` entry replaced by the parsed JSON value (account.py line 223). -/
structure ViewOut (J R : Type) where
  result : J
  rest : R
deriving DecidableEq, Repr

/-- The access-key dict fetched by `provider.get_access_key`: the mutable
`"nonce"` entry the code increments, and `rest` for every other field
(public key / permission data), which the code never modifies. -/
structure AccessKey (K : Type) where
  nonce : Nat
  rest : K
deriving DecidableEq, Repr

/-- The RPC provider (`near_api.providers.JsonProvider`), modelled by the
methods this module calls.  Each can raise (network failure). -/
structure Provider (P D E R : Type) where
  get_account : String → Except RpcErr D
  get_status : Except RpcErr StatusResp
  send_tx_and_wait : List Nat → Nat → Except RpcErr (TxResult P)
  send_tx : List Nat → Except RpcErr String
  view_call : String → String → List Nat → Except RpcErr (ViewResp E R)

/-- The external libraries the module imports: the `transactions`
sign-and-serialize collaborator (which can raise on a signing failure),
`base58.b58decode` (composed with the str→bytes utf-8 encode the code
applies first), and `json.loads` / `json.dumps`. -/
structure Externals (A S J G : Type) where
  sign_and_serialize_transaction : String → Nat → List A → List Nat → S → Except RpcErr (List Nat)
  b58decode : String → List Nat
  json_loads : String → Except JsonErr J
  json_dumps : G → String

/-- The `Account` object: provider, signer, account id, cached account
state dict, access-key dict (account.py lines 28-32). -/
structure Account (S P D E R K : Type) where
  provider : Provider P D E R
  signer : S
  account_id : String
  account : D
  access_key : AccessKey K

/-- Exceptions escaping a submission call: a propagated collaborator
exception, `TransactionError(result['status']['Failure'])` (line 45), or
the async path's `TransactionError(f'Unable to sign and submit ...')`
(line 71). -/
inductive SubmitErr (P : Type) where
  | rpc (e : RpcErr)
  | transactionError (payload : P)
  | transactionErrorMsg (msg : String)
deriving DecidableEq, Repr

/-- Exceptions escaping `view_function`: a propagated transport exception,
`ViewFunctionError(result['error'])` (line 222), or the `json.loads`
exception from line 223. -/
inductive ViewErr (E : Type) where
  | rpc (e : RpcErr)
  | viewFunctionError (e : E)
  | jsonDecodeError (e : JsonErr)
deriving DecidableEq, Repr

/-- Observable effects of one submission call, in Python statement order. -/
inductive Ev (A S : Type) where
  | advance_nonce (new_nonce : Nat)
  | fetch_block_hash (r : Except RpcErr String)
  | sign_and_serialize (receiver_id : String) (nonce : Nat) (actions : List A)
      (block_hash : List Nat) (signer : S)
  | send_tx_and_wait (tx : List Nat) (timeout : Nat)
  | send_tx (tx : List Nat)
  | log_line (s : String)
deriving Repr

variable {A S P D E R K J G : Type}

/-- `Account._sign_and_submit_tx` (account.py lines 34-46).  Returns the
Python result (the outcome tree, or the raised exception), the `self`
object after the call (its nonce mutated in place on line 35), and the
event trace.  Log lines printed on line 43 become `Ev.log_line` events. -/
def Account.sign_and_submit_tx (ext : Externals A S J G) (self : Account S P D E R K)
    (receiver_id : String) (actions : List A) :
    Except (SubmitErr P) (TxResult P) × Account S P D E R K × List (Ev A S) :=
  -- line 35: self._access_key["nonce"] += 1
  let self := { self with access_key := { self.access_key with nonce := self.access_key.nonce + 1 } }
  let tr0 : List (Ev A S) := [Ev.advance_nonce self.access_key.nonce]
  -- line 36: block_hash = self._provider.get_status()['sync_info']['latest_block_hash']
  match self.provider.get_status with
  | Except.error e => (Except.error (SubmitErr.rpc e), self, tr0 ++ [Ev.fetch_block_hash (Except.error e)])
  | Except.ok status =>
    -- line 37: block_hash = base58.b58decode(block_hash.encode('utf8'))
    let block_hash := ext.b58decode status.sync_info.latest_block_hash
    let tr1 := tr0 ++ [Ev.fetch_block_hash (Except.ok status.sync_info.latest_block_hash)]
    -- lines 38-39: serialized_tx = transactions.sign_and_serialize_transaction(...)
    let tr2 := tr1 ++ [Ev.sign_and_serialize receiver_id self.access_key.nonce actions block_hash self.signer]
    match ext.sign_and_serialize_transaction receiver_id self.access_key.nonce actions block_hash self.signer with
    | Except.error e => (Except.error (SubmitErr.rpc e), self, tr2)
    | Except.ok serialized_tx =>
      -- line 40: result = self._provider.send_tx_and_wait(serialized_tx, 10)
      let tr3 := tr2 ++ [Ev.send_tx_and_wait serialized_tx 10]
      match self.provider.send_tx_and_wait serialized_tx 10 with
      | Except.error e => (Except.error (SubmitErr.rpc e), self, tr3)
      | Except.ok result =>
        -- lines 41-43: print every log of the transaction outcome, then of each receipt outcome
        let logs := result.transaction_outcome.outcome.logs
            ++ (result.receipts_outcome.map (fun o => o.outcome.logs)).flatten
        let tr4 := tr3 ++ logs.map Ev.log_line
        -- lines 44-46: if 'Failure' in result['status']: raise ... ; return result
        match result.status.Failure with
        | some payload => (Except.error (SubmitErr.transactionError payload), self, tr4)
        | none => (Except.ok result, self, tr4)

/-- `Account._sign_and_submit_tx_async` (account.py lines 48-72). -/
def Account.sign_and_submit_tx_async (ext : Externals A S J G) (self : Account S P D E R K)
    (receiver_id : String) (actions : List A) :
    Except (SubmitErr P) String × Account S P D E R K × List (Ev A S) :=
  -- line 63: self._access_key["nonce"] += 1
  let self := { self with access_key := { self.access_key with nonce := self.access_key.nonce + 1 } }
  let tr0 : List (Ev A S) := [Ev.advance_nonce self.access_key.nonce]
  -- line 64: block_hash = self._provider.get_status()['sync_info']['latest_block_hash']
  match self.provider.get_status with
  | Except.error e => (Except.error (SubmitErr.rpc e), self, tr0 ++ [Ev.fetch_block_hash (Except.error e)])
  | Except.ok status =>
    -- line 65: block_hash = base58.b58decode(block_hash.encode('utf8'))
    let block_hash := ext.b58decode status.sync_info.latest_block_hash
    let tr1 := tr0 ++ [Ev.fetch_block_hash (Except.ok status.sync_info.latest_block_hash)]
    -- lines 66-67: serialized_tx = transactions.sign_and_serialize_transaction(...)
    let tr2 := tr1 ++ [Ev.sign_and_serialize receiver_id self.access_key.nonce actions block_hash self.signer]
    match ext.sign_and_serialize_transaction receiver_id self.access_key.nonce actions block_hash self.signer with
    | Except.error e => (Except.error (SubmitErr.rpc e), self, tr2)
    | Except.ok serialized_tx =>
      -- line 68: result = self._provider.send_tx(serialized_tx)
      let tr3 := tr2 ++ [Ev.send_tx serialized_tx]
      match self.provider.send_tx serialized_tx with
      | Except.error e => (Except.error (SubmitErr.rpc e), self, tr3)
      | Except.ok result =>
        -- lines 69-72: if (len(result) == 44): raise TransactionError(...) ; return result
        if result.length == 44 then
          (Except.error (SubmitErr.transactionErrorMsg
            ("Unable to sign and submit transaction. tx_hash is \"" ++ result ++ "\"")), self, tr3)
        else
          (Except.ok result, self, tr3)

/-- `Account.fetch_state` (account.py lines 94-96):
`self._account = self.provider.get_account(self.account_id)`. -/
def Account.fetch_state (self : Account S P D E R K) :
    Except RpcErr Unit × Account S P D E R K :=
  match self.provider.get_account self.account_id with
  | Except.error e => (Except.error e, self)
  | Except.ok d => (Except.ok (), { self with account := d })

/-- The str→bytes `'utf8'` encode applied to the JSON-dumped argument dict
before it is handed to `provider.view_call` (account.py line 220). -/
def utf8Encode (s : String) : List Nat :=
  s.toUTF8.toList.map (fun b => b.toNat)

/-- `''.join([chr(x) for x in result["result"]])` (account.py line 223):
each byte becomes the character with that code point. -/
def bytesToText (bs : List Nat) : String :=
  String.mk (bs.map Char.ofNat)

/-- `Account.view_function` (account.py lines 218-224).  The second
component is the `self` object after the call: the method only reads
`self._provider`, so `self` is returned as it was. -/
def Account.view_function (ext : Externals A S J G) (self : Account S P D E R K)
    (contract_id method_name : String) (args : G) :
    Except (ViewErr E) (ViewOut J R) × Account S P D E R K :=
  -- line 220: result = self._provider.view_call(contract_id, method_name, json.dumps(args).encode('utf8'))
  match self.provider.view_call contract_id method_name (utf8Encode (ext.json_dumps args)) with
  | Except.error e => (Except.error (ViewErr.rpc e), self)
  | Except.ok result =>
    -- lines 221-222: if "error" in result: raise ViewFunctionError(result["error"])
    match result.error with
    | some err => (Except.error (ViewErr.viewFunctionError err), self)
    | none =>
      -- line 223: result["result"] = json.loads(''.join([chr(x) for x in result["result"]]))
      match ext.json_loads (bytesToText result.result) with
      | Except.error je => (Except.error (ViewErr.jsonDecodeError je), self)
      | Except.ok v => (Except.ok { result := v, rest := result.rest }, self)

/-- Which of the two submission protocols a call uses. -/
inductive SubKind where
  | sync
  | async
deriving DecidableEq, Repr

/-- One submission request of a one-at-a-time sequence: the protocol, the
provider snapshot answering this call's round trips (each call re-reads
the remote node, so each request carries the responses the node gives it),
and the receiver/actions arguments. -/
structure Request (A P D E R : Type) where
  kind : SubKind
  provider : Provider P D E R
  receiver_id : String
  actions : List A

/-- Perform one submission against the account, returning the account
afterwards and the call's event trace. -/
def submitOnce (ext : Externals A S J G) (r : Request A P D E R) (a : Account S P D E R K) :
    Account S P D E R K × List (Ev A S) :=
  let a := { a with provider := r.provider }
  match r.kind with
  | SubKind.sync =>
    let out := Account.sign_and_submit_tx ext a r.receiver_id r.actions
    (out.2.1, out.2.2)
  | SubKind.async =>
    let out := Account.sign_and_submit_tx_async ext a r.receiver_id r.actions
    (out.2.1, out.2.2)

/-- Run a sequence of submissions one at a time, collecting one event
trace per submission, in order. -/
def runSubmissions (ext : Externals A S J G) :
    List (Request A P D E R) → Account S P D E R K →
    Account S P D E R K × List (List (Ev A S))
  | [], a => (a, [])
  | r :: rs, a =>
    let step := submitOnce ext r a
    let rest := runSubmissions ext rs step.1
    (rest.1, step.2 :: rest.2)

/-- The nonces passed to `sign_and_serialize_transaction`, in trace order. -/
def signNonces : List (Ev A S) → List Nat
  | [] => []
  | Ev.sign_and_serialize _ n _ _ _ :: t => n :: signNonces t
  | _ :: t => signNonces t

/-- The new-nonce values of the nonce-increment events, in trace order. -/
def advanceNonces : List (Ev A S) → List Nat
  | [] => []
  | Ev.advance_nonce n :: t => n :: advanceNonces t
  | _ :: t => advanceNonces t

/-- The log lines printed, in trace order. -/
def logLines : List (Ev A S) → List String
  | [] => []
  | Ev.log_line s :: t => s :: logLines t
  | _ :: t => logLines t

/-! ### Trace bookkeeping lemmas -/

@[simp]
theorem signNonces_append (l₁ l₂ : List (Ev A S)) :
    signNonces (l₁ ++ l₂) = signNonces l₁ ++ signNonces l₂ := by
  induction l₁ with
  | nil => rfl
  | cons e t ih => cases e <;> simp [signNonces, ih]

@[simp]
theorem advanceNonces_append (l₁ l₂ : List (Ev A S)) :
    advanceNonces (l₁ ++ l₂) = advanceNonces l₁ ++ advanceNonces l₂ := by
  induction l₁ with
  | nil => rfl
  | cons e t ih => cases e <;> simp [advanceNonces, ih]

@[simp]
theorem logLines_append (l₁ l₂ : List (Ev A S)) :
    logLines (l₁ ++ l₂) = logLines l₁ ++ logLines l₂ := by
  induction l₁ with
  | nil => rfl
  | cons e t ih => cases e <;> simp [logLines, ih]

@[simp]
theorem signNonces_map_log (l : List String) :
    signNonces (l.map (Ev.log_line (A := A) (S := S))) = [] := by
  induction l with
  | nil => rfl
  | cons s t ih => simp [signNonces, ih]

@[simp]
theorem advanceNonces_map_log (l : List String) :
    advanceNonces (l.map (Ev.log_line (A := A) (S := S))) = [] := by
  induction l with
  | nil => rfl
  | cons s t ih => simp [advanceNonces, ih]

@[simp]
theorem logLines_map_log (l : List String) :
    logLines (l.map (Ev.log_line (A := A) (S := S))) = l := by
  induction l with
  | nil => rfl
  | cons s t ih => simp [logLines, ih]

@[simp]
theorem signNonces_flatten_map_log {α : Type} (f : α → List String) (l : List α) :
    signNonces ((l.map (List.map (Ev.log_line (A := A) (S := S)) ∘ f)).flatten) = [] := by
  induction l with
  | nil => rfl
  | cons x t ih => simp [ih]

@[simp]
theorem advanceNonces_flatten_map_log {α : Type} (f : α → List String) (l : List α) :
    advanceNonces ((l.map (List.map (Ev.log_line (A := A) (S := S)) ∘ f)).flatten) = [] := by
  induction l with
  | nil => rfl
  | cons x t ih => simp [ih]

@[simp]
theorem logLines_flatten_map_log {α : Type} (f : α → List String) (l : List α) :
    logLines ((l.map (List.map (Ev.log_line (A := A) (S := S)) ∘ f)).flatten)
      = (l.map f).flatten := by
  induction l with
  | nil => rfl
  | cons x t ih => simp [ih]

/-- The account as it is after the in-place nonce increment
(`self._access_key["nonce"] += 1`): only the nonce entry changes. -/
def bumpNonce (a : Account S P D E R K) : Account S P D E R K :=
  { a with access_key := { a.access_key with nonce := a.access_key.nonce + 1 } }

/-! ### Per-submission lemmas -/

theorem sign_and_submit_tx_state (ext : Externals A S J G) (a : Account S P D E R K)
    (rid : String) (acts : List A) :
    (Account.sign_and_submit_tx ext a rid acts).2.1 = bumpNonce a := by
  simp only [Account.sign_and_submit_tx, bumpNonce]
  (repeat' split) <;> rfl

theorem sign_and_submit_tx_async_state (ext : Externals A S J G) (a : Account S P D E R K)
    (rid : String) (acts : List A) :
    (Account.sign_and_submit_tx_async ext a rid acts).2.1 = bumpNonce a := by
  simp only [Account.sign_and_submit_tx_async, bumpNonce]
  (repeat' split) <;> rfl

theorem sign_and_submit_tx_signNonces (ext : Externals A S J G) (a : Account S P D E R K)
    (rid : String) (acts : List A) :
    signNonces (Account.sign_and_submit_tx ext a rid acts).2.2 = []
    ∨ signNonces (Account.sign_and_submit_tx ext a rid acts).2.2 = [a.access_key.nonce + 1] := by
  simp only [Account.sign_and_submit_tx]
  (repeat' split) <;> simp [signNonces]

theorem sign_and_submit_tx_async_signNonces (ext : Externals A S J G) (a : Account S P D E R K)
    (rid : String) (acts : List A) :
    signNonces (Account.sign_and_submit_tx_async ext a rid acts).2.2 = []
    ∨ signNonces (Account.sign_and_submit_tx_async ext a rid acts).2.2 = [a.access_key.nonce + 1] := by
  simp only [Account.sign_and_submit_tx_async]
  (repeat' split) <;> simp [signNonces]

theorem submitOnce_state (ext : Externals A S J G) (r : Request A P D E R)
    (a : Account S P D E R K) :
    (submitOnce ext r a).1 = bumpNonce { a with provider := r.provider } := by
  unfold submitOnce
  cases r.kind
  · simp [sign_and_submit_tx_state]
  · simp [sign_and_submit_tx_async_state]

theorem submitOnce_signNonces (ext : Externals A S J G) (r : Request A P D E R)
    (a : Account S P D E R K) :
    signNonces (submitOnce ext r a).2 = []
    ∨ signNonces (submitOnce ext r a).2 = [a.access_key.nonce + 1] := by
  unfold submitOnce
  cases r.kind
  · simpa using sign_and_submit_tx_signNonces ext { a with provider := r.provider } r.receiver_id r.actions
  · simpa using sign_and_submit_tx_async_signNonces ext { a with provider := r.provider } r.receiver_id r.actions

@[simp]
theorem bumpNonce_nonce (a : Account S P D E R K) :
    (bumpNonce a).access_key.nonce = a.access_key.nonce + 1 := rfl

@[simp]
theorem bumpNonce_provider_nonce (a : Account S P D E R K) (p : Provider P D E R) :
    (bumpNonce { a with provider := p }).access_key.nonce = a.access_key.nonce + 1 := rfl

/-! ### The nonce invariant over a one-at-a-time sequence of submissions -/

theorem runSubmissions_invariant (ext : Externals A S J G)
    (l : List (Request A P D E R)) (a : Account S P D E R K) :
    (runSubmissions ext l a).1.access_key.nonce = a.access_key.nonce + l.length ∧
    (∀ n ∈ ((runSubmissions ext l a).2.map signNonces).flatten,
        a.access_key.nonce < n ∧ n ≤ (runSubmissions ext l a).1.access_key.nonce) ∧
    List.Pairwise (· < ·) ((runSubmissions ext l a).2.map signNonces).flatten := by
  induction l generalizing a with
  | nil => simp [runSubmissions]
  | cons r rs ih =>
    obtain ⟨ih1, ih2, ih3⟩ := ih (submitOnce ext r a).1
    have hb : (submitOnce ext r a).1.access_key.nonce = a.access_key.nonce + 1 := by
      rw [submitOnce_state]; rfl
    have hfin : (runSubmissions ext (r :: rs) a).1.access_key.nonce
        = a.access_key.nonce + (rs.length + 1) := by
      simp only [runSubmissions]
      omega
    have hsign := submitOnce_signNonces ext r a
    refine ⟨by simpa using hfin, ?_, ?_⟩
    · intro n hn
      simp only [runSubmissions, List.map_cons, List.flatten_cons, List.mem_append] at hn
      rcases hn with h1 | h2
      · rcases hsign with he | he <;> rw [he] at h1
        · cases h1
        · have hn1 : n = a.access_key.nonce + 1 := by simpa using h1
          refine ⟨by omega, ?_⟩
          rw [hfin]; omega
      · obtain ⟨hlo, hhi⟩ := ih2 n h2
        refine ⟨by omega, ?_⟩
        rw [hfin]
        omega
    · simp only [runSubmissions, List.map_cons, List.flatten_cons]
      rw [List.pairwise_append]
      refine ⟨?_, ih3, ?_⟩
      · rcases hsign with he | he <;> rw [he] <;> simp
      · intro x hx y hy
        rcases hsign with he | he <;> rw [he] at hx
        · cases hx
        · have hx1 : x = a.access_key.nonce + 1 := by simpa using hx
          obtain ⟨hlo, _⟩ := ih2 y hy
          omega

theorem runSubmissions_per_call (ext : Externals A S J G)
    (l : List (Request A P D E R)) (a : Account S P D E R K) :
    ∀ t ∈ (runSubmissions ext l a).2, (signNonces t).length ≤ 1 := by
  induction l generalizing a with
  | nil => simp [runSubmissions]
  | cons r rs ih =>
    intro t ht
    simp only [runSubmissions, List.mem_cons] at ht
    rcases ht with rfl | ht
    · rcases submitOnce_signNonces ext r a with he | he <;> simp [he]
    · exact ih _ t ht

/-! ### Concrete fixtures used by the witness theorems -/

/-- A status response with a concrete textual block hash. -/
def statusOk : StatusResp := ⟨⟨"8hFVcYtR2dGq"⟩⟩

/-- A successful outcome tree: no `Failure` key in the status, one log on
the transaction outcome and one on the first receipt outcome. -/
def resOk : TxResult String := ⟨⟨⟨["log a"]⟩⟩, [⟨⟨["log b"]⟩⟩, ⟨⟨[]⟩⟩], ⟨none⟩⟩

/-- A failed outcome tree: the status dict contains `Failure`. -/
def resFail : TxResult String := ⟨⟨⟨["log a"]⟩⟩, [⟨⟨["log b"]⟩⟩], ⟨some "ActionError"⟩⟩

/-- The view-call response of the spec's concrete scenario. -/
def viewRespOk : ViewResp String String := ⟨none, [72, 101, 108, 108, 111], "block-height"⟩

/-- A view-call response carrying an `error` field. -/
def viewRespErr : ViewResp String String := ⟨some "wasm execution failed", [1, 2], "block-height"⟩

/-- A provider whose every call succeeds. -/
def provOk : Provider String String String String where
  get_account := fun _ => Except.ok "account-state"
  get_status := Except.ok statusOk
  send_tx_and_wait := fun _ _ => Except.ok resOk
  send_tx := fun _ => Except.ok "short-hash"
  view_call := fun _ _ _ => Except.ok viewRespOk

/-- A provider whose synchronous submission reports an on-chain failure. -/
def provFail : Provider String String String String :=
  { provOk with send_tx_and_wait := fun _ _ => Except.ok resFail }

/-- A provider whose `get_status` raises (network failure). -/
def provStatusErr : Provider String String String String :=
  { provOk with get_status := Except.error ⟨"status down"⟩ }

/-- A provider whose `view_call` response carries an `error` field. -/
def provViewErr : Provider String String String String :=
  { provOk with view_call := fun _ _ _ => Except.ok viewRespErr }

/-- Concrete external collaborators: signing succeeds with a fixed buffer,
`json.loads` rejects the non-JSON text `"Hello"` and accepts anything
else verbatim. -/
def testExt : Externals String String String String where
  sign_and_serialize_transaction := fun _ _ _ _ _ => Except.ok [1, 2, 3]
  b58decode := fun _ => [9, 9, 9]
  json_loads := fun s => if s = "Hello" then Except.error ⟨"not json"⟩ else Except.ok s
  json_dumps := fun g => g

/-- External collaborators whose signing step raises. -/
def extBadSign : Externals String String String String :=
  { testExt with sign_and_serialize_transaction := fun _ _ _ _ _ => Except.error ⟨"sign fail"⟩ }

/-- An account with nonce 5, built over the given provider. -/
def testAccount (p : Provider String String String String) :
    Account String String String String String String :=
  ⟨p, "ed25519:signer", "alice", "account-state", ⟨5, "ed25519:pubkey"⟩⟩

/-! ### The claims -/

/-- Claim C1: for every sequence of N submissions against one account
issued one-at-a-time (any mix of the synchronous and the asynchronous
submission operation), the nonces passed to
`sign_and_serialize_transaction` are pairwise strictly increasing in
submission order, each submission passes at most one nonce to it, and the
run consumes exactly one nonce value per submission (the final in-memory
nonce is the initial nonce plus N). -/
theorem claim_C1_nonce_strictly_increasing (ext : Externals A S J G)
    (l : List (Request A P D E R)) (a : Account S P D E R K) :
    (runSubmissions ext l a).1.access_key.nonce = a.access_key.nonce + l.length ∧
    List.Pairwise (· < ·) ((runSubmissions ext l a).2.map signNonces).flatten ∧
    ∀ t ∈ (runSubmissions ext l a).2, (signNonces t).length ≤ 1 :=
  ⟨(runSubmissions_invariant ext l a).1, (runSubmissions_invariant ext l a).2.2,
    runSubmissions_per_call ext l a⟩

/-- Claim C2: a synchronous submission raises
`TransactionError(result['status']['Failure'])` exactly when the response
status contains a top-level `Failure` key; for every other status the call
returns the full response unchanged. -/
theorem claim_C2_sync_failure_classification (ext : Externals A S J G)
    (a : Account S P D E R K) (rid : String) (acts : List A)
    (status : StatusResp) (tx : List Nat) (res : TxResult P)
    (hst : a.provider.get_status = Except.ok status)
    (hsig : ext.sign_and_serialize_transaction rid (a.access_key.nonce + 1) acts
        (ext.b58decode status.sync_info.latest_block_hash) a.signer = Except.ok tx)
    (hsend : a.provider.send_tx_and_wait tx 10 = Except.ok res) :
    (∀ p, (Account.sign_and_submit_tx ext a rid acts).1
        = Except.error (SubmitErr.transactionError p) ↔ res.status.Failure = some p) ∧
    (res.status.Failure = none →
      (Account.sign_and_submit_tx ext a rid acts).1 = Except.ok res) := by
  simp only [Account.sign_and_submit_tx, hst, hsig, hsend]
  rcases hf : res.status.Failure with _ | p <;> simp [hf]

/-- Witness for claim C2 at a concrete account, provider and response. -/
theorem claim_C2_witness :
    provOk.get_status = Except.ok statusOk ∧
    testExt.sign_and_serialize_transaction "bob" ((testAccount provOk).access_key.nonce + 1)
      ["transfer"] (testExt.b58decode statusOk.sync_info.latest_block_hash)
      (testAccount provOk).signer = Except.ok [1, 2, 3] ∧
    provOk.send_tx_and_wait [1, 2, 3] 10 = Except.ok resOk ∧
    (Account.sign_and_submit_tx testExt (testAccount provOk) "bob" ["transfer"]).1
      = Except.ok resOk :=
  ⟨rfl, rfl, rfl,
    (claim_C2_sync_failure_classification testExt (testAccount provOk) "bob" ["transfer"]
      statusOk [1, 2, 3] resOk rfl rfl rfl).2 rfl⟩

/-- A 44-character base58 transaction hash, the shape of a genuine
submission handle (the code's own comment: "tx_hash is 44 chars long"). -/
def txHash44 : String := "2vU5CMFnZ3veFXjNYvEQuQhZkpwXSbWFqBhVEw9Q7wqR"

/-- A provider whose `send_tx` replies with the 44-character handle. -/
def prov44 : Provider String String String String :=
  { provOk with send_tx := fun _ => Except.ok txHash44 }

/-- Claim C3: the claim says an asynchronous submission whose `send_tx`
reply is a 44-character base58 handle returns that handle; the code does
the opposite — `if (len(result) == 44): raise TransactionError(...)`
(account.py lines 69-71) — so at a 44-character handle the call raises
`TransactionError` instead of returning the handle, contradicting the
method's own docstring ("Returns: str: tx_hash of transaction"). -/
theorem claim_C3_async_44_char_reply_raises :
    txHash44.length = 44 ∧
    (Account.sign_and_submit_tx_async testExt (testAccount prov44) "contract" ["set_value"]).1
      = Except.error (SubmitErr.transactionErrorMsg
          ("Unable to sign and submit transaction. tx_hash is \"" ++ txHash44 ++ "\"")) := by
  constructor
  · rfl
  · rfl

/-! ### Assembly-order lemmas (both submission paths) -/

theorem sign_and_submit_tx_assembly (ext : Externals A S J G) (a : Account S P D E R K)
    (rid : String) (acts : List A) (status : StatusResp)
    (hst : a.provider.get_status = Except.ok status) :
    (Account.sign_and_submit_tx (P := P) ext a rid acts).2.2.take 3
      = [Ev.advance_nonce (a.access_key.nonce + 1),
         Ev.fetch_block_hash (Except.ok status.sync_info.latest_block_hash),
         Ev.sign_and_serialize rid (a.access_key.nonce + 1) acts
           (ext.b58decode status.sync_info.latest_block_hash) a.signer] ∧
    advanceNonces (Account.sign_and_submit_tx (P := P) ext a rid acts).2.2
      = [a.access_key.nonce + 1] := by
  simp only [Account.sign_and_submit_tx, hst]
  (repeat' split) <;> exact ⟨rfl, by simp [advanceNonces]⟩

theorem sign_and_submit_tx_async_assembly (ext : Externals A S J G) (a : Account S P D E R K)
    (rid : String) (acts : List A) (status : StatusResp)
    (hst : a.provider.get_status = Except.ok status) :
    (Account.sign_and_submit_tx_async (P := P) ext a rid acts).2.2.take 3
      = [Ev.advance_nonce (a.access_key.nonce + 1),
         Ev.fetch_block_hash (Except.ok status.sync_info.latest_block_hash),
         Ev.sign_and_serialize rid (a.access_key.nonce + 1) acts
           (ext.b58decode status.sync_info.latest_block_hash) a.signer] ∧
    advanceNonces (Account.sign_and_submit_tx_async (P := P) ext a rid acts).2.2
      = [a.access_key.nonce + 1] := by
  simp only [Account.sign_and_submit_tx_async, hst]
  (repeat' split) <;> exact ⟨rfl, by simp [advanceNonces]⟩

/-- Claim C4: both submission paths perform, in order, the nonce advance
(exactly once: the advance-event list is the singleton new nonce, and the
in-memory nonce afterwards is the old nonce plus one), the block-hash
fetch with its base58 decode, and then the call to the external
`sign_and_serialize_transaction` collaborator with the receiver, the new
nonce, the action list, the decoded hash and the signer. -/
theorem claim_C4_assembly_order (ext : Externals A S J G) (a : Account S P D E R K)
    (rid : String) (acts : List A) (status : StatusResp)
    (hst : a.provider.get_status = Except.ok status) :
    ((Account.sign_and_submit_tx (P := P) ext a rid acts).2.2.take 3
        = [Ev.advance_nonce (a.access_key.nonce + 1),
           Ev.fetch_block_hash (Except.ok status.sync_info.latest_block_hash),
           Ev.sign_and_serialize rid (a.access_key.nonce + 1) acts
             (ext.b58decode status.sync_info.latest_block_hash) a.signer] ∧
      advanceNonces (Account.sign_and_submit_tx (P := P) ext a rid acts).2.2
        = [a.access_key.nonce + 1] ∧
      (Account.sign_and_submit_tx (P := P) ext a rid acts).2.1.access_key.nonce
        = a.access_key.nonce + 1) ∧
    ((Account.sign_and_submit_tx_async (P := P) ext a rid acts).2.2.take 3
        = [Ev.advance_nonce (a.access_key.nonce + 1),
           Ev.fetch_block_hash (Except.ok status.sync_info.latest_block_hash),
           Ev.sign_and_serialize rid (a.access_key.nonce + 1) acts
             (ext.b58decode status.sync_info.latest_block_hash) a.signer] ∧
      advanceNonces (Account.sign_and_submit_tx_async (P := P) ext a rid acts).2.2
        = [a.access_key.nonce + 1] ∧
      (Account.sign_and_submit_tx_async (P := P) ext a rid acts).2.1.access_key.nonce
        = a.access_key.nonce + 1) :=
  ⟨⟨(sign_and_submit_tx_assembly ext a rid acts status hst).1,
    (sign_and_submit_tx_assembly ext a rid acts status hst).2,
    by rw [sign_and_submit_tx_state]; rfl⟩,
   ⟨(sign_and_submit_tx_async_assembly ext a rid acts status hst).1,
    (sign_and_submit_tx_async_assembly ext a rid acts status hst).2,
    by rw [sign_and_submit_tx_async_state]; rfl⟩⟩

/-- Witness for claim C4 at a concrete account and provider. -/
theorem claim_C4_witness :
    provOk.get_status = Except.ok statusOk ∧
    (Account.sign_and_submit_tx testExt (testAccount provOk) "bob" ["transfer"]).2.2.take 3
      = [Ev.advance_nonce 6,
         Ev.fetch_block_hash (Except.ok "8hFVcYtR2dGq"),
         Ev.sign_and_serialize "bob" 6 ["transfer"] [9, 9, 9] "ed25519:signer"] ∧
    (Account.sign_and_submit_tx_async testExt (testAccount provOk) "bob" ["transfer"]).2.1.access_key.nonce
      = 6 :=
  ⟨rfl,
   (claim_C4_assembly_order testExt (testAccount provOk) "bob" ["transfer"] statusOk rfl).1.1,
   (claim_C4_assembly_order testExt (testAccount provOk) "bob" ["transfer"] statusOk rfl).2.2.2⟩

/-- Claim C7: a synchronous submission surfaces every log line as a
printed side effect, in remote order: first the transaction outcome's
logs, then each receipt outcome's logs in response order — whatever the
status classification then decides. -/
theorem claim_C7_logs_in_order (ext : Externals A S J G) (a : Account S P D E R K)
    (rid : String) (acts : List A)
    (status : StatusResp) (tx : List Nat) (res : TxResult P)
    (hst : a.provider.get_status = Except.ok status)
    (hsig : ext.sign_and_serialize_transaction rid (a.access_key.nonce + 1) acts
        (ext.b58decode status.sync_info.latest_block_hash) a.signer = Except.ok tx)
    (hsend : a.provider.send_tx_and_wait tx 10 = Except.ok res) :
    logLines (Account.sign_and_submit_tx ext a rid acts).2.2
      = res.transaction_outcome.outcome.logs
        ++ (res.receipts_outcome.map (fun o => o.outcome.logs)).flatten := by
  simp only [Account.sign_and_submit_tx, hst, hsig, hsend]
  rcases hf : res.status.Failure with _ | p <;> simp [hf, logLines]

/-- Witness for claim C7: the concrete run prints the transaction
outcome's log and then the receipt outcomes' logs, in order. -/
theorem claim_C7_witness :
    provOk.get_status = Except.ok statusOk ∧
    provOk.send_tx_and_wait [1, 2, 3] 10 = Except.ok resOk ∧
    logLines (Account.sign_and_submit_tx testExt (testAccount provOk) "bob" ["transfer"]).2.2
      = resOk.transaction_outcome.outcome.logs
        ++ (resOk.receipts_outcome.map (fun o => o.outcome.logs)).flatten :=
  ⟨rfl, rfl,
   claim_C7_logs_in_order testExt (testAccount provOk) "bob" ["transfer"]
     statusOk [1, 2, 3] resOk rfl rfl rfl⟩

/-- Claim C8: in both submission paths, if the block-hash fetch or the
signing step raises after the nonce increment, the call aborts with the
error propagated and the account is left exactly as the increment made it:
the in-memory nonce stays incremented (a gap, not rolled back). -/
theorem claim_C8_failure_keeps_incremented_nonce (ext : Externals A S J G)
    (a : Account S P D E R K) (rid : String) (acts : List A) :
    (∀ e, a.provider.get_status = Except.error e →
        (Account.sign_and_submit_tx (P := P) ext a rid acts).1 = Except.error (SubmitErr.rpc e) ∧
        (Account.sign_and_submit_tx (P := P) ext a rid acts).2.1 = bumpNonce a) ∧
    (∀ status e, a.provider.get_status = Except.ok status →
        ext.sign_and_serialize_transaction rid (a.access_key.nonce + 1) acts
          (ext.b58decode status.sync_info.latest_block_hash) a.signer = Except.error e →
        (Account.sign_and_submit_tx (P := P) ext a rid acts).1 = Except.error (SubmitErr.rpc e) ∧
        (Account.sign_and_submit_tx (P := P) ext a rid acts).2.1 = bumpNonce a) ∧
    (∀ e, a.provider.get_status = Except.error e →
        (Account.sign_and_submit_tx_async ext a rid acts).1 = Except.error (SubmitErr.rpc e) ∧
        (Account.sign_and_submit_tx_async ext a rid acts).2.1 = bumpNonce a) ∧
    (∀ status e, a.provider.get_status = Except.ok status →
        ext.sign_and_serialize_transaction rid (a.access_key.nonce + 1) acts
          (ext.b58decode status.sync_info.latest_block_hash) a.signer = Except.error e →
        (Account.sign_and_submit_tx_async ext a rid acts).1 = Except.error (SubmitErr.rpc e) ∧
        (Account.sign_and_submit_tx_async ext a rid acts).2.1 = bumpNonce a) := by
  refine ⟨?_, ?_, ?_, ?_⟩
  · intro e he
    refine ⟨?_, sign_and_submit_tx_state ext a rid acts⟩
    simp only [Account.sign_and_submit_tx, he]
  · intro status e hst hsig
    refine ⟨?_, sign_and_submit_tx_state ext a rid acts⟩
    simp only [Account.sign_and_submit_tx, hst, hsig]
  · intro e he
    refine ⟨?_, sign_and_submit_tx_async_state ext a rid acts⟩
    simp only [Account.sign_and_submit_tx_async, he]
  · intro status e hst hsig
    refine ⟨?_, sign_and_submit_tx_async_state ext a rid acts⟩
    simp only [Account.sign_and_submit_tx_async, hst, hsig]

/-- Witness for claim C8: a failed status fetch on the sync path and a
failed signing step on the async path both leave the nonce at 6. -/
theorem claim_C8_witness :
    provStatusErr.get_status = Except.error ⟨"status down"⟩ ∧
    (Account.sign_and_submit_tx testExt (testAccount provStatusErr) "bob" ["transfer"]).1
      = Except.error (SubmitErr.rpc ⟨"status down"⟩) ∧
    (Account.sign_and_submit_tx testExt (testAccount provStatusErr) "bob" ["transfer"]).2.1
      = bumpNonce (testAccount provStatusErr) ∧
    (Account.sign_and_submit_tx_async extBadSign (testAccount provOk) "bob" ["transfer"]).1
      = Except.error (SubmitErr.rpc ⟨"sign fail"⟩) ∧
    (Account.sign_and_submit_tx_async extBadSign (testAccount provOk) "bob" ["transfer"]).2.1
      = bumpNonce (testAccount provOk) :=
  ⟨rfl,
   ((claim_C8_failure_keeps_incremented_nonce testExt (testAccount provStatusErr)
      "bob" ["transfer"]).1 ⟨"status down"⟩ rfl).1,
   ((claim_C8_failure_keeps_incremented_nonce testExt (testAccount provStatusErr)
      "bob" ["transfer"]).1 ⟨"status down"⟩ rfl).2,
   ((claim_C8_failure_keeps_incremented_nonce extBadSign (testAccount provOk)
      "bob" ["transfer"]).2.2.2 statusOk ⟨"sign fail"⟩ rfl rfl).1,
   ((claim_C8_failure_keeps_incremented_nonce extBadSign (testAccount provOk)
      "bob" ["transfer"]).2.2.2 statusOk ⟨"sign fail"⟩ rfl rfl).2⟩

/-- Claim C5: a view-call response carrying an `error` field makes
`view_function` raise `ViewFunctionError` with the provided message — for
every possible `json.loads`, i.e. the byte-to-text/JSON-decoding step is
never reached — and conversely a `ViewFunctionError` is raised only when
the response carries an `error` field. -/
theorem claim_C5_view_error_short_circuits (ext : Externals A S J G)
    (a : Account S P D E R K) (cid mname : String) (args : G) (resp : ViewResp E R)
    (hvc : a.provider.view_call cid mname (utf8Encode (ext.json_dumps args)) = Except.ok resp) :
    (∀ err, resp.error = some err →
        ∀ jl : String → Except JsonErr J,
          (Account.view_function { ext with json_loads := jl } a cid mname args).1
            = Except.error (ViewErr.viewFunctionError err)) ∧
    (∀ err, (Account.view_function ext a cid mname args).1
        = Except.error (ViewErr.viewFunctionError err) → resp.error = some err) := by
  constructor
  · intro err herr jl
    simp only [Account.view_function, hvc, herr]
  · intro err h
    rcases hre : resp.error with _ | e
    · rcases hjl : ext.json_loads (bytesToText resp.result) with je | v <;>
        simp only [Account.view_function, hvc, hre, hjl] at h <;> simp at h
    · simp only [Account.view_function, hvc, hre] at h
      have he : e = err := by simpa using h
      rw [he]

/-- Witness for claim C5: an `error`-carrying response raises
`ViewFunctionError` with the message. -/
theorem claim_C5_witness :
    provViewErr.view_call "contract" "get_value" (utf8Encode (testExt.json_dumps "args"))
      = Except.ok viewRespErr ∧
    viewRespErr.error = some "wasm execution failed" ∧
    (Account.view_function testExt (testAccount provViewErr) "contract" "get_value" "args").1
      = Except.error (ViewErr.viewFunctionError "wasm execution failed") :=
  ⟨rfl, rfl,
    (claim_C5_view_error_short_circuits testExt (testAccount provViewErr)
      "contract" "get_value" "args" viewRespErr rfl).1 "wasm execution failed" rfl
      testExt.json_loads⟩

/-- Claim C6: on a response without an `error` field, the result byte
sequence is rebuilt into text character-by-character (the concrete example
`[72,101,108,108,111]` becomes `"Hello"`) and that text is handed to the
JSON parser: a parse failure propagates as a failure rather than a value,
and a parse success becomes the returned value. -/
theorem claim_C6_view_decode (ext : Externals A S J G) (a : Account S P D E R K)
    (cid mname : String) (args : G) (resp : ViewResp E R)
    (hvc : a.provider.view_call cid mname (utf8Encode (ext.json_dumps args)) = Except.ok resp)
    (herr : resp.error = none) :
    bytesToText [72, 101, 108, 108, 111] = "Hello" ∧
    (∀ je, ext.json_loads (bytesToText resp.result) = Except.error je →
        (Account.view_function ext a cid mname args).1
          = Except.error (ViewErr.jsonDecodeError je)) ∧
    (∀ v, ext.json_loads (bytesToText resp.result) = Except.ok v →
        (Account.view_function ext a cid mname args).1
          = Except.ok ⟨v, resp.rest⟩) := by
  refine ⟨by decide, ?_, ?_⟩
  · intro je hje
    simp only [Account.view_function, hvc, herr, hje]
  · intro v hv
    simp only [Account.view_function, hvc, herr, hv]

/-- Witness for claim C6: the bytes `[72,101,108,108,111]` become
`"Hello"`, which the parser rejects, so the call fails with the parse
error. -/
theorem claim_C6_witness :
    provOk.view_call "contract" "get_value" (utf8Encode (testExt.json_dumps "args"))
      = Except.ok viewRespOk ∧
    viewRespOk.error = none ∧
    testExt.json_loads (bytesToText viewRespOk.result) = Except.error ⟨"not json"⟩ ∧
    (Account.view_function testExt (testAccount provOk) "contract" "get_value" "args").1
      = Except.error (ViewErr.jsonDecodeError ⟨"not json"⟩) :=
  ⟨rfl, rfl, rfl,
    (claim_C6_view_decode testExt (testAccount provOk) "contract" "get_value" "args"
      viewRespOk rfl rfl).2.1 ⟨"not json"⟩ rfl⟩

/-- Claim C9: `view_function` leaves the account untouched whether it
succeeds or raises: in particular the access-key state (public key data
and nonce) is exactly what it was, and no nonce advance, signing or
transaction assembly happens on the view path. -/
theorem claim_C9_view_function_frame (ext : Externals A S J G) (a : Account S P D E R K)
    (cid mname : String) (args : G) :
    (Account.view_function ext a cid mname args).2 = a ∧
    (Account.view_function ext a cid mname args).2.access_key = a.access_key := by
  have h : (Account.view_function ext a cid mname args).2 = a := by
    simp only [Account.view_function]
    (repeat' split) <;> rfl
  exact ⟨h, by rw [h]⟩

/-- Claim C10: `fetch_state` replaces only the cached account-state
snapshot, with the result of a fresh `get_account` lookup; the account id,
signer, provider and access-key state (nonce included) are unchanged. -/
theorem claim_C10_fetch_state_frame (a : Account S P D E R K) :
    (∀ d, a.provider.get_account a.account_id = Except.ok d →
        Account.fetch_state a = (Except.ok (), { a with account := d })) ∧
    (∀ e, a.provider.get_account a.account_id = Except.error e →
        Account.fetch_state a = (Except.error e, a)) ∧
    (Account.fetch_state a).2.account_id = a.account_id ∧
    (Account.fetch_state a).2.signer = a.signer ∧
    (Account.fetch_state a).2.provider = a.provider ∧
    (Account.fetch_state a).2.access_key = a.access_key := by
  refine ⟨?_, ?_, ?_, ?_, ?_, ?_⟩
  · intro d hd
    simp only [Account.fetch_state, hd]
  · intro e he
    simp only [Account.fetch_state, he]
  all_goals simp only [Account.fetch_state]
  all_goals (repeat' split) <;> rfl

/-- Witness for claim C10: a concrete refresh replaces the snapshot and
nothing else. -/
theorem claim_C10_witness :
    provOk.get_account "alice" = Except.ok "account-state" ∧
    Account.fetch_state (testAccount provOk)
      = (Except.ok (), { testAccount provOk with account := "account-state" }) :=
  ⟨rfl, (claim_C10_fetch_state_frame (testAccount provOk)).1 "account-state" rfl⟩
